import Mathlib

/-!
Shallow embedding of the usocks tunnel client (src/client.py and
src/frontend/redirect.py).  Byte strings are lists of naturals, sockets are
replaced by explicit oracles describing what the operating system would have
answered (bytes accepted by a non-blocking send, bytes returned by a recv,
or an errno), and the side effects of the reactor (closing a local
connection, delivering bytes to a local socket, emitting a tunnel control
packet, closing the backend) are recorded in an explicit event trace.
Python exceptions are modelled as an `Option PyErr` component carried next
to the state reached so far, because side effects performed before a raise
persist in Python.
-/

namespace USocks

/-- Byte sequences, one natural per byte. -/
abbrev Bytes := List Nat

/-- Python exceptions that the embedded code can raise: KeyError from dict
access, and socket.error carrying an errno. -/
inductive PyErr where
  | keyError : PyErr
  | socketError (errno : Nat) : PyErr
deriving DecidableEq

/-- Linux errno for EWOULDBLOCK, as compared against in client.py. -/
def errnoEWOULDBLOCK : Nat := 11

/-- Linux errno for ECONNRESET, as compared against in client.py. -/
def errnoECONNRESET : Nat := 104

/-- Linux errno for EBADF, raised by a socket operation on a closed socket. -/
def errnoEBADF : Nat := 9

namespace StatusControl

/-- Modelled from the spec: tunnel.py is not under src/, so the
StatusControl flag bits are taken from spec section 6, which gives the bit
set over DAT=1, FIN=2, RST=4 (any fixed encoding with independently
testable, combinable flags is declared acceptable there). -/
def dat : Nat := 1

/-- Modelled from the spec: FIN flag bit, spec section 6. -/
def fin : Nat := 2

/-- Modelled from the spec: RST flag bit, spec section 6. -/
def rst : Nat := 4

end StatusControl

/-- Distinguishes the two ways client.py tears down a local socket:
Connection.close does setblocking(1) then an orderly close, while
Connection.reset first sets SO_LINGER(1,0) so the close is abortive. -/
inductive CloseMode where
  | orderly
  | abortive
deriving DecidableEq

/-- Observable effects of the reactor, recorded in order of occurrence.
closedLocal carries the close mode and the outbound bytes still buffered
(and therefore discarded) at close time; delivered records bytes actually
accepted by a local socket; sentRst, sentFin and sentDat record the calls
reset_connection, close_connection and send_packet on the tunnel;
flushedRecord records one continue_sending call of the shutdown drain
loop. -/
inductive Event where
  | closedLocal (id : Nat) (mode : CloseMode) (buf : Bytes)
  | delivered (id : Nat) (b : Bytes)
  | sentRst (id : Nat)
  | sentFin (id : Nat)
  | sentDat (id : Nat) (b : Bytes)
  | closedListener
  | closedRecord
  | flushedRecord (n : Nat)
  | closedBackend
deriving DecidableEq

/-- Embeds the Connection wrapper of client.py: the paired stream id, the
outbound buffer send_buf, and the file descriptor of the wrapped socket
(fileno is delegated to the socket). -/
structure Conn where
  conn_id : Nat
  send_buf : Bytes
  fd : Nat
deriving DecidableEq

/-- Oracle describing what the non-blocking socket send would have done:
accepted n bytes, raised EWOULDBLOCK, or raised another socket.error. -/
inductive SendRes where
  | accepted (n : Nat)
  | wouldblock
  | sockErr (e : Nat)
deriving DecidableEq

/-- Embeds Connection.send of client.py (lines 36-49): append data to
send_buf, return at once if the buffer is empty, otherwise attempt one
socket send; EWOULDBLOCK counts as 0 bytes sent, any other socket.error is
re-raised (with the appended buffer kept, since the append happened before
the raise), and the sent prefix is dropped from the front of the buffer.
The returned triple is the updated wrapper, the bytes actually handed to
the socket, and the error if one was raised. -/
def Conn.send (c : Conn) (data : Bytes) (res : SendRes) : Conn × Bytes × Option PyErr :=
  let buf := c.send_buf ++ data
  if buf = [] then
    ({ c with send_buf := buf }, [], none)
  else
    match res with
    | SendRes.accepted n => ({ c with send_buf := buf.drop n }, buf.take n, none)
    | SendRes.wouldblock => ({ c with send_buf := buf }, [], none)
    | SendRes.sockErr e => ({ c with send_buf := buf }, [], some (PyErr.socketError e))

/-- Embeds Connection.get_wlist of client.py (lines 63-65): a singleton
list holding the file descriptor when send_buf is non-empty, otherwise the
implicit Python None, modelled as none. -/
def Conn.get_wlist (c : Conn) : Option (List Nat) :=
  if c.send_buf ≠ [] then some [c.fd] else none

namespace FrontendServer

/-- Embeds FrontendServer.recv of frontend/redirect.py (lines 41-45),
parametrized by the bytes the underlying socket recv(4096) returned; the
empty string (peer closed) is replaced by None, anything else is returned
unchanged. -/
def recv (readResult : Bytes) : Option Bytes :=
  if readResult = [] then none else some readResult

end FrontendServer

/-- State of the TunnelClient reactor that the claims are about: the
connection dict conns (an association list with the keys unique, as in a
Python dict) and the trace of observable events so far. -/
structure ClientState where
  conns : List (Nat × Conn)
  events : List Event
deriving DecidableEq

/-- Embeds the Python dict membership and lookup on self.conns. -/
def lookupConn : List (Nat × Conn) → Nat → Option Conn
  | [], _ => none
  | p :: rest, id => if p.1 = id then some p.2 else lookupConn rest id

/-- Embeds del self.conns[conn_id] on the association list. -/
def removeConn : List (Nat × Conn) → Nat → List (Nat × Conn)
  | [], _ => []
  | p :: rest, id => if p.1 = id then removeConn rest id else p :: removeConn rest id

/-- Models the in-place mutation of the Connection object stored under a
key of self.conns: the entry for that key, if present, now holds the
updated wrapper. -/
def updateConn (l : List (Nat × Conn)) (id : Nat) (c : Conn) : List (Nat × Conn) :=
  l.map fun p => if p.1 = id then (id, c) else p

/-- Decoded inbound tunnel packet as yielded by receive_packets: the
stream id, the control flag word, and the data bytes. -/
structure Packet where
  conn_id : Nat
  control : Nat
  data : Bytes
deriving DecidableEq

/-- Embeds TunnelClient._close_connection (client.py 184-189): look the id
up in the dict (a missing key raises KeyError, as both self.conns[conn_id]
and del would), close the wrapper abortively when reset is true and
orderly otherwise, and delete the entry.  The close event records the
outbound bytes still buffered, which are discarded by the close. -/
def closeConnection (s : ClientState) (conn_id : Nat) (reset : Bool) :
    ClientState × Option PyErr :=
  match lookupConn s.conns conn_id with
  | none => (s, some PyErr.keyError)
  | some c =>
    ({ conns := removeConn s.conns conn_id,
       events := s.events ++
         [Event.closedLocal conn_id (if reset then CloseMode.abortive else CloseMode.orderly)
           c.send_buf] },
     none)

/-- Embeds the FIN branch at the end of the _process_tunnel loop body
(client.py 151-152): when the fin bit is set, _close_connection(conn_id)
with the default reset=False. -/
def finStep (s : ClientState) (p : Packet) : ClientState × Option PyErr :=
  if p.control &&& StatusControl.fin ≠ 0 then closeConnection s p.conn_id false
  else (s, none)

/-- Embeds the body of the for-loop of TunnelClient._process_tunnel
(client.py 142-152) for one inbound packet.  An unknown conn_id is skipped
(continue).  Otherwise the local variable conn aliases the dict entry; the
RST bit triggers _close_connection(conn_id, True), after which the alias
still exists but its socket is closed; the DAT bit triggers
conn.send(data), which on the already-closed socket raises EBADF unless
the appended buffer is empty and no socket call happens at all, and on a
live socket consults the send oracle and writes the mutated wrapper back
into the dict; the FIN bit finally triggers _close_connection(conn_id),
which raises KeyError when the RST branch already deleted the entry.  The
pair returned is the state reached so far and the exception, if one
escaped. -/
def processPacket (s : ClientState) (p : Packet) (res : SendRes) :
    ClientState × Option PyErr :=
  match lookupConn s.conns p.conn_id with
  | none => (s, none)
  | some conn0 =>
    if p.control &&& StatusControl.rst ≠ 0 then
      let s1 := (closeConnection s p.conn_id true).1
      if p.control &&& StatusControl.dat ≠ 0 then
        if conn0.send_buf ++ p.data = [] then finStep s1 p
        else (s1, some (PyErr.socketError errnoEBADF))
      else finStep s1 p
    else
      if p.control &&& StatusControl.dat ≠ 0 then
        match Conn.send conn0 p.data res with
        | (conn1, deliveredBytes, none) =>
          finStep
            { conns := updateConn s.conns p.conn_id conn1,
              events := s.events ++
                (if deliveredBytes = [] then []
                 else [Event.delivered p.conn_id deliveredBytes]) } p
        | (conn1, _, some e) =>
          ({ conns := updateConn s.conns p.conn_id conn1, events := s.events }, some e)
      else finStep s p

/-- Folds processPacket over the packets yielded by receive_packets,
stopping at the first escaping exception, as the raise aborts the for
loop. -/
def processPackets : ClientState → List (Packet × SendRes) → ClientState × Option PyErr
  | s, [] => (s, none)
  | s, (p, r) :: rest =>
    match processPacket s p r with
    | (s1, none) => processPackets s1 rest
    | (s1, some e) => (s1, some e)

/-- Outcome of one tunnel.receive_packets call: the packets the generator
yields (each with the send oracle for its potential DAT branch), and
whether the generator ends by raising ConnectionClosedException. -/
structure TunnelRecv where
  packets : List (Packet × SendRes)
  closed : Bool
deriving DecidableEq

/-- Embeds TunnelClient._process_tunnel (client.py 140-154): drain the
generator, and catch only ConnectionClosedException, which sets
self.running to False; any other exception escapes with running
unchanged.  The triple returned is the state, the running flag, and the
escaping exception if any. -/
def processTunnel (s : ClientState) (running : Bool) (rcv : TunnelRecv) :
    ClientState × Bool × Option PyErr :=
  match processPackets s rcv.packets with
  | (s1, none) => (s1, (if rcv.closed then false else running), none)
  | (s1, some e) => (s1, running, some e)

/-- Outcome of one conn.recv(4096) call on a local socket: bytes (empty
means the peer closed), or a socket.error with an errno. -/
inductive RecvRes where
  | bytes (b : Bytes)
  | sockErr (e : Nat)
deriving DecidableEq

/-- Embeds TunnelClient._process_connection (client.py 161-176): an
ECONNRESET from recv sends a RST upstream and runs
_close_connection(conn_id) with the default reset=False, any other
socket.error is re-raised, an empty read sends a FIN upstream and likewise
closes, and data is forwarded with send_packet. -/
def processConnection (s : ClientState) (conn_id : Nat) (r : RecvRes) :
    ClientState × Option PyErr :=
  match r with
  | RecvRes.sockErr e =>
    if e = errnoECONNRESET then
      closeConnection { s with events := s.events ++ [Event.sentRst conn_id] } conn_id false
    else (s, some (PyErr.socketError e))
  | RecvRes.bytes b =>
    if b = [] then
      closeConnection { s with events := s.events ++ [Event.sentFin conn_id] } conn_id false
    else ({ s with events := s.events ++ [Event.sentDat conn_id b] }, none)

/-- Modelled from the spec: record.py is not under src/, so the
RecordConnection is reduced to what spec section 4.1 states the claims
need, namely its outbound byte queue; get_wlist signals a writable wait
exactly when the queue is non-empty, and continue_sending hands the
backend a prefix of the queue. -/
structure RecordConn where
  out_queue : Bytes
deriving DecidableEq

/-- Modelled from the spec: one continue_sending call after the backend
accepted n bytes keeps the unsent remainder queued (spec section 4.1). -/
def recordContinueSending (r : RecordConn) (n : Nat) : RecordConn :=
  { out_queue := r.out_queue.drop n }

/-- Embeds the drain loop of TunnelClient.run (client.py 102-109): while
get_wlist is non-empty, wait for writability and call continue_sending.
The list accepts supplies the byte counts the backend accepts on the
successive iterations and bounds them; when it runs out with the queue
still non-empty the loop has not terminated within the budget and none is
returned.  On success the final record connection and the flush events are
returned. -/
def drainLoop : RecordConn → List Nat → Option (RecordConn × List Event)
  | r, [] => if r.out_queue = [] then some (r, []) else none
  | r, n :: rest =>
    if r.out_queue = [] then some (r, [])
    else
      match drainLoop (recordContinueSending r n) rest with
      | none => none
      | some (r1, evs) => some (r1, Event.flushedRecord n :: evs)

/-- Embeds the part of TunnelClient.run after the main loop exits
(client.py 99-110): close the listening socket, close every connection in
self.conns in order with the orderly Connection.close, close the record
connection, run the drain loop, and close the backend last. -/
def shutdown (s : ClientState) (r : RecordConn) (accepts : List Nat) :
    Option (List Event × RecordConn) :=
  match drainLoop r accepts with
  | none => none
  | some (r1, fevs) =>
    some ((Event.closedListener ::
        (s.conns.map fun q => Event.closedLocal q.1 CloseMode.orderly q.2.send_buf) ++
        Event.closedRecord :: fevs) ++ [Event.closedBackend], r1)

/-- Embeds the write phase of TunnelClient._process (client.py 133-139):
iterate over the ready file descriptors, map each back to its owning
entity through wdict, and flush each entity the first time it is seen,
skipping descriptors whose owner is already in the written_conns
ObjectSet.  ObjectSet is modelled from the spec (util.py is not under
src/) as a set of entities under identity, with entities named by ids; the
list returned holds the entities flushed, in order. -/
def writePhase (wdict : Nat → Nat) : List Nat → List Nat → List Nat
  | _, [] => []
  | written, fd :: rest =>
    if wdict fd ∈ written then writePhase wdict written rest
    else wdict fd :: writePhase wdict (wdict fd :: written) rest

/-- Recognizes a local-close event for the given stream id, whatever the
close mode and discarded buffer. -/
def Event.isCloseOf (id : Nat) : Event → Bool
  | Event.closedLocal i _ _ => i == id
  | _ => false

/-- Recognizes an abortive (SO_LINGER reset) local-close event for any
stream. -/
def Event.isAbortiveClose : Event → Bool
  | Event.closedLocal _ CloseMode.abortive _ => true
  | _ => false

/-- C8: Connection.send appends the data to the outbound buffer and then
attempts a partial write; exactly the n bytes the socket accepts are
removed from the front of the buffer, the unsent remainder is retained in
order (the sent prefix followed by the retained buffer reassembles the
whole buffer), no error is reported, and a would-block outcome keeps the
entire appended buffer with 0 bytes transferred and no error. -/
theorem send_appends_then_partial_write (c : Conn) (data : Bytes) (n : Nat)
    (h : n ≤ (c.send_buf ++ data).length) :
    (Conn.send c data (SendRes.accepted n)).1.send_buf = (c.send_buf ++ data).drop n ∧
    (Conn.send c data (SendRes.accepted n)).2.1 = (c.send_buf ++ data).take n ∧
    (Conn.send c data (SendRes.accepted n)).2.1 ++
        (Conn.send c data (SendRes.accepted n)).1.send_buf = c.send_buf ++ data ∧
    (Conn.send c data (SendRes.accepted n)).2.2 = none ∧
    Conn.send c data SendRes.wouldblock = ({ c with send_buf := c.send_buf ++ data }, [], none) := by
  unfold Conn.send
  by_cases hb : c.send_buf ++ data = []
  · have hn : n = 0 := by
      have := h
      rw [hb] at this
      simpa using this
    simp [hb, hn]
  · simp [hb, List.take_append_drop]

/-- Witness for C8 at a concrete buffer, data and accepted count. -/
theorem send_appends_then_partial_write_witness :
    (Conn.send ⟨7, [1, 2], 5⟩ [3, 4] (SendRes.accepted 3)).1.send_buf =
        (([1, 2] : Bytes) ++ [3, 4]).drop 3 ∧
    (Conn.send ⟨7, [1, 2], 5⟩ [3, 4] (SendRes.accepted 3)).2.1 =
        (([1, 2] : Bytes) ++ [3, 4]).take 3 ∧
    (Conn.send ⟨7, [1, 2], 5⟩ [3, 4] (SendRes.accepted 3)).2.1 ++
        (Conn.send ⟨7, [1, 2], 5⟩ [3, 4] (SendRes.accepted 3)).1.send_buf =
        ([1, 2] : Bytes) ++ [3, 4] ∧
    (Conn.send ⟨7, [1, 2], 5⟩ [3, 4] (SendRes.accepted 3)).2.2 = none ∧
    Conn.send ⟨7, [1, 2], 5⟩ [3, 4] SendRes.wouldblock =
        (⟨7, ([1, 2] : Bytes) ++ [3, 4], 5⟩, [], none) :=
  send_appends_then_partial_write ⟨7, [1, 2], 5⟩ [3, 4] 3 (by decide)

/-- C9: Connection.get_wlist returns the singleton list holding the file
descriptor exactly when the outbound buffer is non-empty, and returns the
falsy None exactly when the buffer is empty, so no writable-readiness wait
is registered for an idle connection. -/
theorem get_wlist_iff_buffered (c : Conn) :
    (Conn.get_wlist c = some [c.fd] ↔ c.send_buf ≠ []) ∧
    (Conn.get_wlist c = none ↔ c.send_buf = []) := by
  unfold Conn.get_wlist
  by_cases hb : c.send_buf = [] <;> simp [hb]

/-- C10: FrontendServer.recv returns None exactly when the underlying read
returned the empty byte string, otherwise it returns the non-empty bytes
unchanged (hence at most the 4096 the socket read can return), and it never
returns an empty byte string. -/
theorem frontend_recv_none_iff_empty (r : Bytes) (h : r.length ≤ 4096) :
    (FrontendServer.recv r = none ↔ r = []) ∧
    (r ≠ [] → FrontendServer.recv r = some r) ∧
    (∀ b, FrontendServer.recv r = some b → b ≠ [] ∧ b.length ≤ 4096) := by
  unfold FrontendServer.recv
  by_cases hr : r = []
  · simp [hr]
  · refine ⟨by simp [hr], fun _ => by simp [hr], ?_⟩
    intro b hb
    rw [if_neg hr] at hb
    cases hb
    exact ⟨by simpa using hr, by simpa using h⟩

/-- Witness for C10 at a concrete inbound byte string. -/
theorem frontend_recv_none_iff_empty_witness :
    (FrontendServer.recv [9, 8] = none ↔ ([9, 8] : Bytes) = []) ∧
    (([9, 8] : Bytes) ≠ [] → FrontendServer.recv [9, 8] = some [9, 8]) ∧
    (∀ b, FrontendServer.recv [9, 8] = some b → b ≠ [] ∧ b.length ≤ 4096) :=
  frontend_recv_none_iff_empty [9, 8] (by decide)

/-- Deleting a key from the dict makes a subsequent lookup of it fail. -/
lemma lookupConn_removeConn (l : List (Nat × Conn)) (id : Nat) :
    lookupConn (removeConn l id) id = none := by
  induction l with
  | nil => rfl
  | cons p rest ih =>
    by_cases hp : p.1 = id
    · simpa [removeConn, hp] using ih
    · simp [removeConn, lookupConn, hp, ih]

/-- With the packet's id no longer in the dict, the FIN branch raises
KeyError and leaves the state as it was. -/
lemma finStep_fst_of_lookup_none (s : ClientState) (p : Packet)
    (h : lookupConn s.conns p.conn_id = none) : (finStep s p).1 = s := by
  unfold finStep closeConnection
  by_cases hf : p.control &&& StatusControl.fin ≠ 0 <;> simp [hf, h]

/-- C1 (code evidence): on the failing input — the connection table holding
stream id 1 and a single inbound packet for id 1 whose control word 6 has
both the RST and the FIN bits set — _process_tunnel removes the entry in
the RST branch and then the FIN branch calls _close_connection on the same
id again, so the second removal attempt raises KeyError instead of being
skipped. -/
theorem rst_fin_double_close_keyerror :
    processPacket ⟨[(1, ⟨1, [], 5⟩)], []⟩ ⟨1, 6, []⟩ SendRes.wouldblock =
      (⟨[], [Event.closedLocal 1 CloseMode.abortive []]⟩, some PyErr.keyError) := by
  decide

/-- C2: an inbound packet carrying the RST flag for a stream id present in
the connection table makes the reactor close the paired local connection
abortively (the SO_LINGER reset of Connection.reset, not the orderly
close) and delete the entry, whatever else the control word carries; the
only event added is the abortive close carrying the bytes still buffered
for that stream, so those bytes are discarded and no delivery event for
them is ever emitted. -/
theorem rst_closes_abortively_and_discards (s : ClientState) (p : Packet) (conn0 : Conn)
    (res : SendRes) (hlook : lookupConn s.conns p.conn_id = some conn0)
    (hrst : p.control &&& StatusControl.rst ≠ 0) :
    (processPacket s p res).1.conns = removeConn s.conns p.conn_id ∧
    lookupConn (processPacket s p res).1.conns p.conn_id = none ∧
    (processPacket s p res).1.events =
      s.events ++ [Event.closedLocal p.conn_id CloseMode.abortive conn0.send_buf] := by
  have hfst : (processPacket s p res).1 =
      { conns := removeConn s.conns p.conn_id,
        events := s.events ++
          [Event.closedLocal p.conn_id CloseMode.abortive conn0.send_buf] } := by
    have hclose : closeConnection s p.conn_id true =
        ({ conns := removeConn s.conns p.conn_id,
           events := s.events ++
             [Event.closedLocal p.conn_id CloseMode.abortive conn0.send_buf] },
         none) := by
      simp [closeConnection, hlook]
    have hnone : lookupConn (removeConn s.conns p.conn_id) p.conn_id = none :=
      lookupConn_removeConn s.conns p.conn_id
    simp only [processPacket, hlook]
    rw [if_pos hrst, hclose]
    by_cases hdat : p.control &&& StatusControl.dat ≠ 0
    · by_cases hempty : conn0.send_buf ++ p.data = []
      · simpa [hdat, hempty] using finStep_fst_of_lookup_none _ p hnone
      · simp [hdat, hempty]
    · simpa [hdat] using finStep_fst_of_lookup_none _ p hnone
  refine ⟨by rw [hfst], ?_, by rw [hfst]⟩
  rw [hfst]
  exact lookupConn_removeConn s.conns p.conn_id

/-- Witness for C2: a table holding stream 1 with two buffered bytes and a
pure RST packet for it. -/
theorem rst_closes_abortively_and_discards_witness :
    (processPacket ⟨[(1, ⟨1, [10, 20], 5⟩)], []⟩ ⟨1, 4, []⟩ SendRes.wouldblock).1.conns =
      removeConn [(1, ⟨1, [10, 20], 5⟩)] 1 ∧
    lookupConn
      (processPacket ⟨[(1, ⟨1, [10, 20], 5⟩)], []⟩ ⟨1, 4, []⟩ SendRes.wouldblock).1.conns 1 =
      none ∧
    (processPacket ⟨[(1, ⟨1, [10, 20], 5⟩)], []⟩ ⟨1, 4, []⟩ SendRes.wouldblock).1.events =
      [] ++ [Event.closedLocal 1 CloseMode.abortive [10, 20]] :=
  rst_closes_abortively_and_discards ⟨[(1, ⟨1, [10, 20], 5⟩)], []⟩ ⟨1, 4, []⟩
    ⟨1, [10, 20], 5⟩ SendRes.wouldblock (by decide) (by decide)

/-- C6: an inbound packet whose stream id is not in the connection table is
a pure no-op — the whole reactor state, the table and the event trace
included, is unchanged and no exception is raised — and processing simply
continues with the remaining packets of the batch. -/
theorem unknown_stream_is_noop (s : ClientState) (p : Packet) (res : SendRes)
    (rest : List (Packet × SendRes)) (h : lookupConn s.conns p.conn_id = none) :
    processPacket s p res = (s, none) ∧
    processPackets s ((p, res) :: rest) = processPackets s rest := by
  have h1 : processPacket s p res = (s, none) := by
    unfold processPacket
    rw [h]
  exact ⟨h1, by simp [processPackets, h1]⟩

/-- Witness for C6: a packet for the unknown stream id 9 followed by a DAT
packet for the known stream id 1. -/
theorem unknown_stream_is_noop_witness :
    processPacket ⟨[(1, ⟨1, [], 5⟩)], []⟩ ⟨9, 1, [3]⟩ (SendRes.accepted 1) =
      (⟨[(1, ⟨1, [], 5⟩)], []⟩, none) ∧
    processPackets ⟨[(1, ⟨1, [], 5⟩)], []⟩
        [(⟨9, 1, [3]⟩, SendRes.accepted 1), (⟨1, 1, [3]⟩, SendRes.accepted 1)] =
      processPackets ⟨[(1, ⟨1, [], 5⟩)], []⟩ [(⟨1, 1, [3]⟩, SendRes.accepted 1)] :=
  unknown_stream_is_noop ⟨[(1, ⟨1, [], 5⟩)], []⟩ ⟨9, 1, [3]⟩ (SendRes.accepted 1)
    [(⟨1, 1, [3]⟩, SendRes.accepted 1)] (by decide)

/-- Each entity is flushed at most once by the write phase, and an entity
already recorded as written is not flushed again. -/
lemma writePhase_count_le (wdict : Nat → Nat) (wlist : List Nat) (written : List Nat)
    (e : Nat) :
    ((writePhase wdict written wlist).count e ≤ 1) ∧
    (e ∈ written → (writePhase wdict written wlist).count e = 0) := by
  induction wlist generalizing written with
  | nil => simp [writePhase]
  | cons fd rest ih =>
    by_cases hm : wdict fd ∈ written
    · simpa [writePhase, hm] using ih written
    · by_cases he : e = wdict fd
      · subst he
        have h0 := (ih (wdict fd :: written)).2 (by simp)
        refine ⟨?_, fun hw => absurd hw hm⟩
        simp [writePhase, hm, List.count_cons, h0]
      · have h1 := ih (wdict fd :: written)
        have hne : ¬ e = wdict fd := he
        constructor
        · simpa [writePhase, hm, List.count_cons, hne] using h1.1
        · intro hw
          have := h1.2 (by simp [hw])
          simpa [writePhase, hm, List.count_cons, hne] using this

/-- C7: within one iteration of the readiness loop, the write phase flushes
every entity at most once, even when several ready file descriptors of the
writable set map to the same entity through wdict. -/
theorem flush_at_most_once_per_entity (wdict : Nat → Nat) (wlist : List Nat) (e : Nat) :
    (writePhase wdict [] wlist).count e ≤ 1 :=
  (writePhase_count_le wdict wlist [] e).1

/-- A successful drain loop ends with the outbound queue empty, and emits
only flushedRecord events. -/
lemma drainLoop_empties_queue (accepts : List Nat) (r r1 : RecordConn) (fevs : List Event)
    (h : drainLoop r accepts = some (r1, fevs)) :
    r1.out_queue = [] ∧ ∀ e ∈ fevs, ∃ n, e = Event.flushedRecord n := by
  induction accepts generalizing r fevs with
  | nil =>
    unfold drainLoop at h
    by_cases hq : r.out_queue = []
    · rw [if_pos hq] at h
      cases h
      exact ⟨hq, by simp⟩
    · rw [if_neg hq] at h
      cases h
  | cons n rest ih =>
    unfold drainLoop at h
    by_cases hq : r.out_queue = []
    · rw [if_pos hq] at h
      cases h
      exact ⟨hq, by simp⟩
    · rw [if_neg hq] at h
      cases hd : drainLoop (recordContinueSending r n) rest with
      | none => rw [hd] at h; cases h
      | some pr =>
        obtain ⟨r2, evs2⟩ := pr
        rw [hd] at h
        simp only [Option.some.injEq, Prod.mk.injEq] at h
        obtain ⟨hr2, hf⟩ := h
        subst hr2
        subst hf
        obtain ⟨hq2, hall⟩ := ih (recordContinueSending r n) evs2 hd
        refine ⟨hq2, ?_⟩
        intro e he
        rcases List.mem_cons.mp he with he1 | he2
        · exact ⟨n, he1⟩
        · exact hall e he2

/-- A successful shutdown decomposes as the listener close, the orderly
close of every table entry in order, the record-connection close, the
flush events of the drain loop, and finally the backend close, with the
outbound queue empty at the end. -/
lemma shutdown_eq_some (s : ClientState) (r : RecordConn) (accepts : List Nat)
    (evs : List Event) (r1 : RecordConn) (h : shutdown s r accepts = some (evs, r1)) :
    r1.out_queue = [] ∧
    ∃ fevs, (∀ e ∈ fevs, ∃ n, e = Event.flushedRecord n) ∧
      evs = (Event.closedListener ::
        (s.conns.map fun q => Event.closedLocal q.1 CloseMode.orderly q.2.send_buf) ++
        Event.closedRecord :: fevs) ++ [Event.closedBackend] := by
  unfold shutdown at h
  cases hd : drainLoop r accepts with
  | none => rw [hd] at h; cases h
  | some pr =>
    obtain ⟨r2, fevs⟩ := pr
    rw [hd] at h
    simp only [Option.some.injEq, Prod.mk.injEq] at h
    obtain ⟨hevs, hr⟩ := h
    obtain ⟨hq, hall⟩ := drainLoop_empties_queue accepts r r2 fevs hd
    exact ⟨hr ▸ hq, fevs, hall, hevs.symm⟩

/-- C4: whenever the shutdown sequence completes, the record connection's
outbound queue is empty at the end, the backend close is the very last
event, and the trace decomposes as the listener close, the orderly close
of every local connection, the record-connection close, the
continue_sending retries of the drain loop, and only then the backend
close — so the backend is never closed while the queue still holds
bytes. -/
theorem shutdown_flushes_queue_before_backend_close (s : ClientState) (r : RecordConn)
    (accepts : List Nat) (evs : List Event) (r1 : RecordConn)
    (h : shutdown s r accepts = some (evs, r1)) :
    r1.out_queue = [] ∧
    evs.getLast? = some Event.closedBackend ∧
    ∃ fevs, (∀ e ∈ fevs, ∃ n, e = Event.flushedRecord n) ∧
      evs = (Event.closedListener ::
        (s.conns.map fun q => Event.closedLocal q.1 CloseMode.orderly q.2.send_buf) ++
        Event.closedRecord :: fevs) ++ [Event.closedBackend] := by
  obtain ⟨hq, fevs, hall, hevs⟩ := shutdown_eq_some s r accepts evs r1 h
  refine ⟨hq, ?_, fevs, hall, hevs⟩
  rw [hevs]
  exact List.getLast?_concat _

/-- Witness for C4: one open connection, three bytes queued on the record
connection, and a backend accepting 2 then 5 bytes. -/
theorem shutdown_flushes_queue_before_backend_close_witness :
    RecordConn.out_queue ⟨[]⟩ = [] ∧
    List.getLast? [Event.closedListener, Event.closedLocal 1 CloseMode.orderly [7],
        Event.closedRecord, Event.flushedRecord 2, Event.flushedRecord 5,
        Event.closedBackend] = some Event.closedBackend ∧
    ∃ fevs, (∀ e ∈ fevs, ∃ n, e = Event.flushedRecord n) ∧
      [Event.closedListener, Event.closedLocal 1 CloseMode.orderly [7],
        Event.closedRecord, Event.flushedRecord 2, Event.flushedRecord 5,
        Event.closedBackend] =
      (Event.closedListener ::
        ((⟨[(1, ⟨1, [7], 5⟩)], []⟩ : ClientState).conns.map
          fun q => Event.closedLocal q.1 CloseMode.orderly q.2.send_buf) ++
        Event.closedRecord :: fevs) ++ [Event.closedBackend] :=
  shutdown_flushes_queue_before_backend_close ⟨[(1, ⟨1, [7], 5⟩)], []⟩ ⟨[1, 2, 3]⟩ [2, 5]
    [Event.closedListener, Event.closedLocal 1 CloseMode.orderly [7], Event.closedRecord,
      Event.flushedRecord 2, Event.flushedRecord 5, Event.closedBackend] ⟨[]⟩ (by decide)

/-- Close events produced for the table entries are counted by the
multiplicity of the id among the table keys. -/
lemma filter_isCloseOf_map (id : Nat) (l : List (Nat × Conn)) :
    ((l.map fun q => Event.closedLocal q.1 CloseMode.orderly q.2.send_buf).filter
      (Event.isCloseOf id)).length = (l.map Prod.fst).count id := by
  induction l with
  | nil => simp
  | cons p rest ih =>
    by_cases hp : p.1 = id <;>
      simp [Event.isCloseOf, hp, List.count_cons, ih]

/-- C3 (amended: the shutdown path closes with Connection.close, an
orderly close, not the abortive reset): when receive_packets raises the
connection-closed condition, the reactor clears its running flag so the
main loop stops, and the shutdown sequence then closes every open local
connection exactly once — no double close, no leaked entry — strictly
before the backend close, which is the final event. -/
theorem tunnel_closed_shuts_every_conn_once (s s1 : ClientState) (rcv : TunnelRecv)
    (r : RecordConn) (accepts : List Nat) (evs : List Event) (r1 : RecordConn)
    (id : Nat)
    (hclosed : rcv.closed = true)
    (hproc : processPackets s rcv.packets = (s1, none))
    (hshut : shutdown s1 r accepts = some (evs, r1))
    (hnodup : (s1.conns.map Prod.fst).Nodup)
    (hid : id ∈ s1.conns.map Prod.fst) :
    (processTunnel s true rcv).2.1 = false ∧
    (evs.filter (Event.isCloseOf id)).length = 1 ∧
    evs.getLast? = some Event.closedBackend ∧
    Event.closedBackend ∉ evs.dropLast := by
  obtain ⟨hq, fevs, hall, hevs⟩ := shutdown_eq_some s1 r accepts evs r1 hshut
  have hrun : (processTunnel s true rcv).2.1 = false := by
    simp [processTunnel, hproc, hclosed]
  have hfe : fevs.filter (Event.isCloseOf id) = [] := by
    rw [List.filter_eq_nil_iff]
    intro e he
    obtain ⟨n, rfl⟩ := hall e he
    simp [Event.isCloseOf]
  have hcount : (evs.filter (Event.isCloseOf id)).length = 1 := by
    rw [hevs]
    simp [List.filter_append, Event.isCloseOf, hfe, filter_isCloseOf_map,
      List.count_eq_one_of_mem hnodup hid]
  have hlast : evs.getLast? = some Event.closedBackend := by
    rw [hevs]
    exact List.getLast?_concat _
  refine ⟨hrun, hcount, hlast, ?_⟩
  rw [hevs, List.dropLast_concat]
  intro hmem
  simp only [List.mem_cons, List.mem_append, List.mem_map] at hmem
  rcases hmem with (h1 | ⟨q, -, h2⟩) | h3 | h4
  · exact Event.noConfusion h1
  · exact Event.noConfusion h2
  · exact Event.noConfusion h3
  · obtain ⟨n, hn⟩ := hall _ h4
    exact Event.noConfusion hn

/-- C3 (counterexample to the claim as stated): with one stream open, the
connection-closed condition stops the loop and the shutdown closes that
stream, but the close event is the orderly Connection.close — the trace
holds no abortive (force) close at all, while the claim asks the stream to
be force-closed. -/
theorem record_closed_shutdown_not_abortive :
    processTunnel ⟨[(1, ⟨1, [], 5⟩)], []⟩ true ⟨[], true⟩ =
      (⟨[(1, ⟨1, [], 5⟩)], []⟩, false, none) ∧
    shutdown ⟨[(1, ⟨1, [], 5⟩)], []⟩ ⟨[]⟩ [] =
      some ([Event.closedListener, Event.closedLocal 1 CloseMode.orderly [],
        Event.closedRecord, Event.closedBackend], ⟨[]⟩) ∧
    ([Event.closedListener, Event.closedLocal 1 CloseMode.orderly [],
      Event.closedRecord, Event.closedBackend].filter Event.isAbortiveClose) = [] := by
  decide

/-- Witness for the amended C3 at one open stream. -/
theorem tunnel_closed_shuts_every_conn_once_witness :
    (processTunnel ⟨[(1, ⟨1, [], 5⟩)], []⟩ true ⟨[], true⟩).2.1 = false ∧
    ([Event.closedListener, Event.closedLocal 1 CloseMode.orderly [],
      Event.closedRecord, Event.closedBackend].filter (Event.isCloseOf 1)).length = 1 ∧
    [Event.closedListener, Event.closedLocal 1 CloseMode.orderly [],
      Event.closedRecord, Event.closedBackend].getLast? = some Event.closedBackend ∧
    Event.closedBackend ∉
      [Event.closedListener, Event.closedLocal 1 CloseMode.orderly [],
        Event.closedRecord, Event.closedBackend].dropLast :=
  tunnel_closed_shuts_every_conn_once ⟨[(1, ⟨1, [], 5⟩)], []⟩ ⟨[(1, ⟨1, [], 5⟩)], []⟩
    ⟨[], true⟩ ⟨[]⟩ []
    [Event.closedListener, Event.closedLocal 1 CloseMode.orderly [],
      Event.closedRecord, Event.closedBackend] ⟨[]⟩ 1
    rfl rfl (by decide) (by decide) (by decide)

/-- C5 (amended: the teardown uses the orderly Connection.close, not the
abortive reset): an ECONNRESET raised by a read on a local socket makes
the reactor send a RST upstream with reset_connection and then close the
paired local connection, deleting its table entry; the handler returns at
once with no error, so the read is not retried. -/
theorem econnreset_sends_rst_then_closes (s : ClientState) (conn_id : Nat) (conn0 : Conn)
    (h : lookupConn s.conns conn_id = some conn0) :
    processConnection s conn_id (RecvRes.sockErr errnoECONNRESET) =
      ({ conns := removeConn s.conns conn_id,
         events := s.events ++ [Event.sentRst conn_id,
           Event.closedLocal conn_id CloseMode.orderly conn0.send_buf] }, none) ∧
    lookupConn (removeConn s.conns conn_id) conn_id = none := by
  constructor
  · simp [processConnection, closeConnection, h]
  · exact lookupConn_removeConn s.conns conn_id

/-- C5 (counterexample to the claim as stated): on ECONNRESET for stream 1,
the RST goes upstream and the entry is removed, but the local close is the
orderly Connection.close — no abortive close appears in the trace, while
the claim asks for an abortive (SO_LINGER) close. -/
theorem econnreset_close_not_abortive :
    processConnection ⟨[(1, ⟨1, [10], 5⟩)], []⟩ 1 (RecvRes.sockErr 104) =
      (⟨[], [Event.sentRst 1, Event.closedLocal 1 CloseMode.orderly [10]]⟩, none) ∧
    ([Event.sentRst 1, Event.closedLocal 1 CloseMode.orderly [10]].filter
      Event.isAbortiveClose) = [] := by
  decide

/-- Witness for the amended C5 at a concrete table. -/
theorem econnreset_sends_rst_then_closes_witness :
    processConnection ⟨[(1, ⟨1, [10], 5⟩)], []⟩ 1 (RecvRes.sockErr errnoECONNRESET) =
      ({ conns := removeConn [(1, ⟨1, [10], 5⟩)] 1,
         events := [] ++ [Event.sentRst 1,
           Event.closedLocal 1 CloseMode.orderly [10]] }, none) ∧
    lookupConn (removeConn [(1, ⟨1, [10], 5⟩)] 1) 1 = none :=
  econnreset_sends_rst_then_closes ⟨[(1, ⟨1, [10], 5⟩)], []⟩ 1 ⟨1, [10], 5⟩ (by decide)

end USocks

